import Mathlib

/-!
# Verification of the swdc-vscode offline-queue and login-state core

Shallow embedding of the offline-telemetry flush logic (`sendOfflineData`,
`isAuthenticated` in `extension.ts`), the cached login-state logic
(`getUserStatus`, `refetchUserStatusLazily`, `userStatusFetchHandler` in
`src/lib/DataController.ts`) and the retry campaigns, together with proofs
of the spec's testable properties about them.

External collaborators (the HTTP client, `JSON.parse`/`JSON.stringify`,
`serverIsAvailable`) are modelled as parameters or as abstract response
records carrying exactly the bits the embedded code inspects
(`isResponseOk`, `isUserDeactivated`).
-/

/-- A JavaScript value as produced by `JSON.parse`: `null`, booleans,
numbers (modelled as integers — the telemetry records only carry
integral counters and strings), strings, arrays and objects. -/
inductive JSValue where
  | null
  | bool (b : Bool)
  | num (n : Int)
  | str (s : List Char)
  | arr (elems : List JSValue)
  | obj (fields : List (List Char × JSValue))

/-- JavaScript truthiness of a `JSValue` (`if (obj)` / `filter(item => item)`):
`null`, `false`, `0` and the empty string are falsy, everything else
(including empty arrays and objects) is truthy. -/
def truthy : JSValue → Bool
  | JSValue.null => false
  | JSValue.bool b => b
  | JSValue.num n => n != 0
  | JSValue.str s => !s.isEmpty
  | JSValue.arr _ => true
  | JSValue.obj _ => true

/-- Helper for `splitRN`: prepend a character to the first chunk of a
split result. -/
def consHead (c : Char) : List (List Char) → List (List Char)
  | [] => [[c]]
  | l :: ls => (c :: l) :: ls

/-- Split a character sequence at every `\n`. -/
def splitNL : List Char → List (List Char)
  | [] => [[]]
  | c :: rest => if c = '\n' then [] :: splitNL rest else consHead c (splitNL rest)

/-- Remove one trailing `\r`, if present. -/
def stripCR (l : List Char) : List Char :=
  if l.getLast? = some '\r' then l.dropLast else l

/-- Remove one trailing `\r` from every chunk that was followed by a
newline separator, i.e. from every chunk except the last. -/
def stripSeps : List (List Char) → List (List Char)
  | [] => []
  | [l] => [l]
  | l :: l2 :: ls => stripCR l :: stripSeps (l2 :: ls)

/-- `content.split(/\r?\n/)` from `sendOfflineData`: the separator is `\n`
optionally preceded by `\r`, so this is splitting at every `\n` and then
stripping the `\r` that directly preceded a consumed `\n`; a lone `\r`
not followed by `\n` is ordinary content. -/
def splitRN (content : List Char) : List (List Char) :=
  stripSeps (splitNL content)

/-- One element of the `.map(...)` body in `sendOfflineData`, composed with
the trailing `.filter(item => item)`:
`obj` starts as `null`; `if (item)` guards the `JSON.parse` call (whose
failure is swallowed by `try/catch`, leaving `obj` null); `if (obj) return
obj` yields the parsed value only when truthy, otherwise the mapped value
is `undefined`; the filter then keeps exactly the truthy values.
`none` stands for both `undefined` and a falsy/unparsed line. -/
def mapItem (parse : List Char → Option JSValue) (item : List Char) : Option JSValue :=
  let obj : Option JSValue := if item.isEmpty then none else parse item
  match obj with
  | some o => if truthy o then some o else none
  | none => none

/-- The batch built from an already-split list of lines:
`lines.map(...).filter(item => item)` of `sendOfflineData`. -/
def payloadsOfLines (parse : List Char → Option JSValue) (lines : List (List Char)) :
    List JSValue :=
  (lines.map (mapItem parse)).filterMap id

/-- The full payload pipeline of `sendOfflineData`:
`content.split(/\r?\n/).map(...).filter(item => item)`. -/
def parsePayloads (parse : List Char → Option JSValue) (content : List Char) :
    List JSValue :=
  payloadsOfLines parse (splitRN content)

/-- Concrete model of `JSON.parse` restricted to the two record literals
used in the spec's malformed-line test; every other line (in particular
`not-json`) fails to parse.  Used only to instantiate witnesses. -/
def sampleParse : List Char → Option JSValue := fun item =>
  if item = "\x7b\"a\":1\x7d".data then
    some (JSValue.obj [("a".data, JSValue.num 1)])
  else if item = "\x7b\"b\":2\x7d".data then
    some (JSValue.obj [("b".data, JSValue.num 2)])
  else none

/-- The record `{"a":1}` as a parsed value. -/
def recA : JSValue := JSValue.obj [("a".data, JSValue.num 1)]

/-- The record `{"b":2}` as a parsed value. -/
def recB : JSValue := JSValue.obj [("b".data, JSValue.num 2)]

/-- Concrete model of `JSON.stringify` matching `sampleParse` on `recA`;
used only to instantiate witnesses. -/
def sampleStringify : JSValue → List Char := fun _ => "\x7b\"a\":1\x7d".data

theorem sample_roundtrip : sampleParse (sampleStringify recA) = some recA := rfl

/-- The concrete store content of the malformed-line test. -/
def malformedContent : List Char := "\x7b\"a\":1\x7d\nnot-json\n\x7b\"b\":2\x7d".data

theorem splitRN_malformed :
    splitRN malformedContent =
      ["\x7b\"a\":1\x7d".data, "not-json".data, "\x7b\"b\":2\x7d".data] := by
  decide

/-- A nonempty line that parses to a truthy value survives the map/filter
pipeline unchanged. -/
theorem mapItem_eq_some (parse : List Char → Option JSValue) (item : List Char)
    (v : JSValue) (hne : item.isEmpty = false) (hp : parse item = some v)
    (ht : truthy v = true) : mapItem parse item = some v := by
  simp only [mapItem, hne, Bool.false_eq_true, if_false, hp, ht, if_true]

/-- A line on which parsing fails is dropped by the pipeline. -/
theorem mapItem_eq_none_of_parse_none (parse : List Char → Option JSValue)
    (item : List Char) (hp : parse item = none) : mapItem parse item = none := by
  simp only [mapItem]
  rcases h : (item.isEmpty : Bool) with _ | _
  · simp only [Bool.false_eq_true, if_false, hp]
  · simp only [if_true]

/-- The empty line (`if (item)` falsy) is dropped by the pipeline. -/
theorem mapItem_nil (parse : List Char → Option JSValue) :
    mapItem parse [] = none := rfl

/-- **C4** — the parsing step of `sendOfflineData` skips unparseable lines and
keeps all valid ones in insertion order: for any `JSON.parse` model that
parses `{"a":1}` and `{"b":2}` to truthy values and fails on `not-json`,
the batch built from the store content `{"a":1}\nnot-json\n{"b":2}` is
exactly `[{"a":1}, {"b":2}]`; and in general a line on which parsing fails
never aborts parsing of the remaining lines — it is dropped and the batch
of the surrounding lines is unchanged. -/
theorem sendOfflineData_skips_malformed_lines :
    (∀ (parse : List Char → Option JSValue) (va vb : JSValue),
      parse "\x7b\"a\":1\x7d".data = some va → truthy va = true →
      parse "not-json".data = none →
      parse "\x7b\"b\":2\x7d".data = some vb → truthy vb = true →
      parsePayloads parse malformedContent = [va, vb]) ∧
    (∀ (parse : List Char → Option JSValue) (pre post : List (List Char))
        (bad : List Char), mapItem parse bad = none →
      payloadsOfLines parse (pre ++ bad :: post) =
        payloadsOfLines parse (pre ++ post)) := by
  constructor
  · intro parse va vb ha hta hn hb htb
    have hma : mapItem parse "\x7b\"a\":1\x7d".data = some va :=
      mapItem_eq_some parse _ va (by decide) ha hta
    have hmn : mapItem parse "not-json".data = none :=
      mapItem_eq_none_of_parse_none parse _ hn
    have hmb : mapItem parse "\x7b\"b\":2\x7d".data = some vb :=
      mapItem_eq_some parse _ vb (by decide) hb htb
    rw [parsePayloads, splitRN_malformed, payloadsOfLines]
    rw [List.map_cons, List.map_cons, List.map_cons, List.map_nil]
    rw [hma, hmn, hmb]
    rfl
  · intro parse pre post bad hbad
    simp only [payloadsOfLines, List.map_append, List.map_cons,
      List.filterMap_append, List.filterMap_cons, hbad, id]

/-- Witness for C4: the concrete `sampleParse` model satisfies the
hypotheses, and the batch of the malformed store is `[recA, recB]`. -/
theorem sendOfflineData_skips_malformed_lines_witness :
    parsePayloads sampleParse malformedContent = [recA, recB] :=
  sendOfflineData_skips_malformed_lines.1 sampleParse recA recB rfl rfl rfl rfl rfl

/-- The two bits of an HTTP response to `POST /data/batch` that
`sendOfflineData` inspects: `isResponseOk(resp)` and
`isUserDeactivated(resp)` (both from the HttpClient collaborator). -/
structure SoftwareResponse where
  ok : Bool
  userDeactivated : Bool

/-- The mutable state touched by the offline-queue code in `extension.ts`:
the module-level `TELEMETRY_ON` flag, the data store file
(`getSoftwareDataStoreFile()`; `none` means the file does not exist),
the log of bodies POSTed to `/data/batch` so far, and the number of
`softwarePost` calls whose `.then` callback has not yet run. -/
structure OfflineState where
  telemetryOn : Bool
  dataStoreFile : Option (List Char)
  submits : List (List JSValue)
  pendingFlushes : Nat

/-- The atomic steps of the offline-queue code under the extension's
single-threaded cooperative scheduling.  `sendOfflineData` is split at its
only suspension point, the `softwarePost(...).then(...)` call:
`startFlush` is the synchronous part up to and including issuing the POST,
`completeFlush` is the `.then` callback running with the response and the
result of the `serverIsAvailable()` re-check.  `append` is the
KpmController writing one record.  `pauseMetrics`/`enableMetrics` are
`handlePauseMetricsEvent`/`handleEnableMetricsEvent`. -/
inductive OfflineEvent where
  | append (r : JSValue)
  | startFlush
  | completeFlush (resp : SoftwareResponse) (serverAvailable : Bool)
  | pauseMetrics
  | enableMetrics

/-- One step of the offline-queue state machine.  `parse` models
`JSON.parse`, `stringify` models `JSON.stringify`.

* `append` — modelled from the spec: `LocalRecordStore.append` "serializes
  record as one line of JSON and appends to the backing file; creates the
  file if absent" (the writer itself lives in KpmController, outside the
  embedded sources).
* `startFlush` — `sendOfflineData` (extension.ts 326-352): returns at once
  if `TELEMETRY_ON` is false; otherwise, if the file exists and its content
  is a nonempty string, builds the payload batch and issues
  `softwarePost("/data/batch", payloads, ...)`.
* `completeFlush` — the `.then` callback (extension.ts 353-361): if
  `isResponseOk(resp) || isUserDeactivated(resp)` and the awaited
  `serverIsAvailable()` is truthy, `deleteFile(getSoftwareDataStoreFile())`
  deletes the store file; otherwise the file is left untouched. -/
def offlineStep (parse : List Char → Option JSValue) (stringify : JSValue → List Char)
    (s : OfflineState) : OfflineEvent → OfflineState
  | OfflineEvent.append r =>
    { s with dataStoreFile := some ((s.dataStoreFile.getD []) ++ stringify r ++ ['\n']) }
  | OfflineEvent.startFlush =>
    if !s.telemetryOn then s
    else
      match s.dataStoreFile with
      | none => s
      | some content =>
        if content.isEmpty then s
        else
          { s with submits := s.submits ++ [parsePayloads parse content],
                   pendingFlushes := s.pendingFlushes + 1 }
  | OfflineEvent.completeFlush resp avail =>
    if s.pendingFlushes = 0 then s
    else
      { s with pendingFlushes := s.pendingFlushes - 1,
               dataStoreFile :=
                 if (resp.ok || resp.userDeactivated) && avail then none
                 else s.dataStoreFile }
  | OfflineEvent.pauseMetrics => { s with telemetryOn := false }
  | OfflineEvent.enableMetrics => { s with telemetryOn := true }

/-- Run a sequence of offline-queue events from a starting state. -/
def offlineRun (parse : List Char → Option JSValue) (stringify : JSValue → List Char)
    (s : OfflineState) (evs : List OfflineEvent) : OfflineState :=
  evs.foldl (offlineStep parse stringify) s

/-- One complete, uninterleaved invocation of `sendOfflineData`: the
synchronous part followed directly by its `.then` callback. -/
def sendOfflineData (parse : List Char → Option JSValue)
    (stringify : JSValue → List Char) (s : OfflineState)
    (resp : SoftwareResponse) (serverAvailable : Bool) : OfflineState :=
  offlineRun parse stringify s
    [OfflineEvent.startFlush, OfflineEvent.completeFlush resp serverAvailable]

/-- The environment read by `isAuthenticated` (extension.ts 302-324):
`getItem("token")` and the `isResponseOk` bit of the response to
`GET /users/ping`. -/
structure AuthEnv where
  token : Option (List Char)
  pingOk : Bool

/-- `isAuthenticated` from extension.ts: if `TELEMETRY_ON` is false,
resolves `true` at once; with no stored token resolves `false`; otherwise
pings `/users/ping` and returns whether the response was ok.  Result is
`(answer, backendContacted)`. -/
def isAuthenticated (telemetryOn : Bool) (env : AuthEnv) : Bool × Bool :=
  if !telemetryOn then (true, false)
  else
    match env.token with
    | none => (false, false)
    | some _ => (env.pingOk, true)

/-- **C10** — whenever telemetry is paused, `sendOfflineData` returns
immediately: the store file, the submit log and the pending-flush count
are all unchanged (no read, no network call); and `isAuthenticated`
returns `true` without contacting the backend, whatever token is stored. -/
theorem telemetry_paused_short_circuits
    (parse : List Char → Option JSValue) (stringify : JSValue → List Char)
    (file : Option (List Char)) (subs : List (List JSValue)) (pend : Nat)
    (env : AuthEnv) :
    offlineRun parse stringify
        { telemetryOn := false, dataStoreFile := file, submits := subs,
          pendingFlushes := pend } [OfflineEvent.startFlush] =
      { telemetryOn := false, dataStoreFile := file, submits := subs,
        pendingFlushes := pend } ∧
    isAuthenticated false env = (true, false) :=
  ⟨rfl, rfl⟩

/-- Refutation of C9 as stated: a store whose single line is `not-json`
yields an empty parsed batch, yet `sendOfflineData` does NOT return
before the network call — `if (content)` only checks that the raw file
content is a nonempty string, so a `POST /data/batch` with an empty
payload array is issued (one pending flush, one logged submit `[]`). -/
theorem empty_batch_still_posts_counterexample :
    parsePayloads sampleParse "not-json".data = [] ∧
    offlineRun sampleParse sampleStringify
        { telemetryOn := true, dataStoreFile := some "not-json".data,
          submits := [], pendingFlushes := 0 } [OfflineEvent.startFlush] =
      { telemetryOn := true, dataStoreFile := some "not-json".data,
        submits := [[]], pendingFlushes := 1 } :=
  ⟨rfl, rfl⟩

/-- **C9 (amended)** — `sendOfflineData` returns immediately with no network
call when the store file is absent or its content is the empty string; but
when the content is a nonempty string, a submit is issued even if no line
is parseable (the batch may be the empty array). -/
theorem sendOfflineData_empty_content_no_network
    (parse : List Char → Option JSValue) (stringify : JSValue → List Char)
    (s : OfflineState) (content : List Char) :
    (s.dataStoreFile = none → offlineRun parse stringify s [OfflineEvent.startFlush] = s) ∧
    (s.dataStoreFile = some [] → offlineRun parse stringify s [OfflineEvent.startFlush] = s) ∧
    (s.telemetryOn = true → s.dataStoreFile = some content → content ≠ [] →
      offlineRun parse stringify s [OfflineEvent.startFlush] =
        { s with submits := s.submits ++ [parsePayloads parse content],
                 pendingFlushes := s.pendingFlushes + 1 }) := by
  refine ⟨?_, ?_, ?_⟩
  · intro h
    cases htel : s.telemetryOn <;>
      simp [offlineRun, offlineStep, h, htel]
  · intro h
    cases htel : s.telemetryOn <;>
      simp [offlineRun, offlineStep, h, htel]
  · intro htel hf hc
    have hemp : content.isEmpty = false := by
      cases content with
      | nil => exact absurd rfl hc
      | cons c cs => rfl
    simp [offlineRun, offlineStep, htel, hf, hemp]

/-- Witness for C9 (amended): with the store `not-json`, the flush issues a
submit whose batch is the empty array. -/
theorem sendOfflineData_empty_content_no_network_witness :
    offlineRun sampleParse sampleStringify
        { telemetryOn := true, dataStoreFile := some "not-json".data,
          submits := [], pendingFlushes := 0 } [OfflineEvent.startFlush] =
      { telemetryOn := true, dataStoreFile := some "not-json".data,
        submits := [] ++ [parsePayloads sampleParse "not-json".data],
        pendingFlushes := 0 + 1 } :=
  (sendOfflineData_empty_content_no_network sampleParse sampleStringify _
    "not-json".data).2.2 rfl rfl (by decide)

/-- Refutation of C3 as stated: `sendOfflineData` has no in-flight guard
flag.  Starting from a store holding the single record `{"a":1}`, two
invocations of `sendOfflineData` with no completion in between (the first
network call is still pending — `pendingFlushes = 1` when the second
invocation runs) issue TWO submit calls for the same records. -/
theorem no_inflight_guard_counterexample :
    (offlineRun sampleParse sampleStringify
        { telemetryOn := true, dataStoreFile := some "\x7b\"a\":1\x7d".data,
          submits := [], pendingFlushes := 0 }
        [OfflineEvent.startFlush]).pendingFlushes = 1 ∧
    (offlineRun sampleParse sampleStringify
        { telemetryOn := true, dataStoreFile := some "\x7b\"a\":1\x7d".data,
          submits := [], pendingFlushes := 0 }
        [OfflineEvent.startFlush, OfflineEvent.startFlush]).submits =
      [[recA], [recA]] :=
  ⟨rfl, rfl⟩

/-- **C3 (amended)** — there is no in-flight guard: for any nonempty store,
a second `sendOfflineData` invocation made while the first invocation's
submit is still pending re-reads the same store and issues a second submit
call with exactly the same batch, leaving two flushes pending. -/
theorem sendOfflineData_resubmits_while_pending
    (parse : List Char → Option JSValue) (stringify : JSValue → List Char)
    (s : OfflineState) (content : List Char) (htel : s.telemetryOn = true)
    (hf : s.dataStoreFile = some content) (hc : content ≠ []) :
    offlineRun parse stringify s [OfflineEvent.startFlush, OfflineEvent.startFlush] =
      { s with
          submits := s.submits ++
            [parsePayloads parse content, parsePayloads parse content],
          pendingFlushes := s.pendingFlushes + 2 } := by
  have hemp : content.isEmpty = false := by
    cases content with
    | nil => exact absurd rfl hc
    | cons c cs => rfl
  simp [offlineRun, offlineStep, htel, hf, hemp]

/-- Witness for C3 (amended): the two-invocation interleaving on the
concrete store `{"a":1}` submits the batch `[recA]` twice. -/
theorem sendOfflineData_resubmits_while_pending_witness :
    offlineRun sampleParse sampleStringify
        { telemetryOn := true, dataStoreFile := some "\x7b\"a\":1\x7d".data,
          submits := [], pendingFlushes := 0 }
        [OfflineEvent.startFlush, OfflineEvent.startFlush] =
      { telemetryOn := true, dataStoreFile := some "\x7b\"a\":1\x7d".data,
        submits := [] ++
          [parsePayloads sampleParse "\x7b\"a\":1\x7d".data,
           parsePayloads sampleParse "\x7b\"a\":1\x7d".data],
        pendingFlushes := 0 + 2 } :=
  sendOfflineData_resubmits_while_pending sampleParse sampleStringify _ _
    rfl rfl (by decide)

/-- **C1** — for a flush whose submit receives a success or
account-deactivated response, the store file is deleted exactly when the
subsequent independent `serverIsAvailable()` re-check succeeds; when the
re-check fails the store is unchanged, and a later flush attempt submits
the very same batch again. -/
theorem sendOfflineData_clear_gated_on_recheck
    (parse : List Char → Option JSValue) (stringify : JSValue → List Char)
    (s : OfflineState) (content : List Char) (resp : SoftwareResponse)
    (avail : Bool) (htel : s.telemetryOn = true)
    (hf : s.dataStoreFile = some content) (hc : content ≠ [])
    (hresp : (resp.ok || resp.userDeactivated) = true) :
    ((sendOfflineData parse stringify s resp avail).dataStoreFile = none ↔
        avail = true) ∧
    (sendOfflineData parse stringify s resp avail).submits =
      s.submits ++ [parsePayloads parse content] ∧
    (avail = false →
      (sendOfflineData parse stringify s resp avail).dataStoreFile =
        some content ∧
      (offlineRun parse stringify (sendOfflineData parse stringify s resp avail)
          [OfflineEvent.startFlush]).submits =
        (s.submits ++ [parsePayloads parse content]) ++
          [parsePayloads parse content]) := by
  have hemp : content.isEmpty = false := by
    cases content with
    | nil => exact absurd rfl hc
    | cons c cs => rfl
  cases avail with
  | false =>
    refine ⟨?_, ?_, ?_⟩ <;>
      simp [sendOfflineData, offlineRun, offlineStep, htel, hf, hemp, hresp]
  | true =>
    refine ⟨?_, ?_, ?_⟩ <;>
      simp [sendOfflineData, offlineRun, offlineStep, htel, hf, hemp, hresp]

/-- Witness for C1: success response but failed connectivity re-check on
the concrete store `{"a":1}` — the store survives and a second flush
submits the same batch again. -/
theorem sendOfflineData_clear_gated_on_recheck_witness :
    ((sendOfflineData sampleParse sampleStringify
        { telemetryOn := true, dataStoreFile := some "\x7b\"a\":1\x7d".data,
          submits := [], pendingFlushes := 0 }
        { ok := true, userDeactivated := false } false).dataStoreFile = none ↔
      false = true) ∧
    (sendOfflineData sampleParse sampleStringify
        { telemetryOn := true, dataStoreFile := some "\x7b\"a\":1\x7d".data,
          submits := [], pendingFlushes := 0 }
        { ok := true, userDeactivated := false } false).submits =
      [] ++ [parsePayloads sampleParse "\x7b\"a\":1\x7d".data] ∧
    (false = false →
      (sendOfflineData sampleParse sampleStringify
          { telemetryOn := true, dataStoreFile := some "\x7b\"a\":1\x7d".data,
            submits := [], pendingFlushes := 0 }
          { ok := true, userDeactivated := false } false).dataStoreFile =
        some "\x7b\"a\":1\x7d".data ∧
      (offlineRun sampleParse sampleStringify
          (sendOfflineData sampleParse sampleStringify
            { telemetryOn := true, dataStoreFile := some "\x7b\"a\":1\x7d".data,
              submits := [], pendingFlushes := 0 }
            { ok := true, userDeactivated := false } false)
          [OfflineEvent.startFlush]).submits =
        ([] ++ [parsePayloads sampleParse "\x7b\"a\":1\x7d".data]) ++
          [parsePayloads sampleParse "\x7b\"a\":1\x7d".data]) :=
  sendOfflineData_clear_gated_on_recheck sampleParse sampleStringify _ _
    { ok := true, userDeactivated := false } false rfl rfl (by decide) rfl

/-- The store file content produced by appending each record in order:
one serialized record per line, each line terminated by `\n`. -/
def encodeRecords (stringify : JSValue → List Char) : List JSValue → List Char
  | [] => []
  | r :: rs => stringify r ++ '\n' :: encodeRecords stringify rs

/-- A serialized record is a safe store line: nonempty and free of line
separators. -/
def goodLine (l : List Char) : Prop :=
  l ≠ [] ∧ '\n' ∉ l ∧ '\r' ∉ l

theorem splitNL_append_line (line rest : List Char)
    (h : '\n' ∉ line) : splitNL (line ++ '\n' :: rest) = line :: splitNL rest := by
  induction line with
  | nil => simp [splitNL]
  | cons c cs ih =>
    have hc : c ≠ '\n' := fun hcn => h (hcn ▸ List.mem_cons_self c cs)
    have hcs : '\n' ∉ cs := fun hm => h (List.mem_cons_of_mem c hm)
    have hstep : splitNL ((c :: cs) ++ '\n' :: rest) =
        consHead c (splitNL (cs ++ '\n' :: rest)) := by
      simp [splitNL, hc]
    rw [hstep, ih hcs]
    rfl

theorem stripCR_eq_self (l : List Char) (h : '\r' ∉ l) : stripCR l = l := by
  unfold stripCR
  rw [if_neg]
  intro hlast
  rcases List.mem_getLast?_eq_getLast (Option.mem_def.mpr hlast) with ⟨hne, heq⟩
  exact h (heq ▸ List.getLast_mem hne)

theorem stripSeps_append_single (L : List (List Char)) (x : List Char)
    (h : ∀ l ∈ L, '\r' ∉ l) : stripSeps (L ++ [x]) = L ++ [x] := by
  induction L with
  | nil => rfl
  | cons l ls ih =>
    have hl : '\r' ∉ l := h l (List.mem_cons_self l ls)
    have hls : ∀ m ∈ ls, '\r' ∉ m := fun m hm => h m (List.mem_cons_of_mem l hm)
    cases ls with
    | nil => simp [stripSeps, stripCR_eq_self l hl]
    | cons l2 ls2 =>
      have ih2 := ih hls
      rw [List.cons_append] at ih2
      simp only [List.cons_append, stripSeps, stripCR_eq_self l hl,
        List.append_eq, ih2]

theorem splitNL_encodeRecords (stringify : JSValue → List Char)
    (rs : List JSValue) (h : ∀ r ∈ rs, '\n' ∉ stringify r) :
    splitNL (encodeRecords stringify rs) = rs.map stringify ++ [[]] := by
  induction rs with
  | nil => rfl
  | cons r rest ih =>
    have hr : '\n' ∉ stringify r := h r (List.mem_cons_self r rest)
    have hrest : ∀ x ∈ rest, '\n' ∉ stringify x :=
      fun x hx => h x (List.mem_cons_of_mem r hx)
    simp only [encodeRecords, splitNL_append_line _ _ hr, ih hrest,
      List.map_cons, List.cons_append]

/-- Splitting the appended store content recovers exactly the serialized
records, in order, followed by the empty chunk after the final `\n`. -/
theorem splitRN_encodeRecords (stringify : JSValue → List Char)
    (rs : List JSValue) (h : ∀ r ∈ rs, goodLine (stringify r)) :
    splitRN (encodeRecords stringify rs) = rs.map stringify ++ [[]] := by
  rw [splitRN, splitNL_encodeRecords stringify rs (fun r hr => (h r hr).2.1)]
  refine stripSeps_append_single _ _ ?_
  intro l hl
  rcases List.mem_map.mp hl with ⟨r, hr, rfl⟩
  exact (h r hr).2.2

/-- The payload pipeline inverts the append encoding: when every record
round-trips through `JSON.stringify`/`JSON.parse` to a truthy value, the
built batch is exactly the appended record list. -/
theorem payloadsOfLines_encodeRecords (parse : List Char → Option JSValue)
    (stringify : JSValue → List Char) (rs : List JSValue)
    (hround : ∀ r ∈ rs, parse (stringify r) = some r)
    (htr : ∀ r ∈ rs, truthy r = true)
    (hline : ∀ r ∈ rs, goodLine (stringify r)) :
    payloadsOfLines parse (rs.map stringify ++ [[]]) = rs := by
  induction rs with
  | nil => rfl
  | cons r rest ih =>
    have hne : (stringify r).isEmpty = false := by
      rcases hl : stringify r with _ | ⟨c, cs⟩
      · exact absurd hl (hline r (List.mem_cons_self r rest)).1
      · rfl
    have hmr : mapItem parse (stringify r) = some r :=
      mapItem_eq_some parse _ r hne (hround r (List.mem_cons_self r rest))
        (htr r (List.mem_cons_self r rest))
    have ihh := ih (fun x hx => hround x (List.mem_cons_of_mem r hx))
      (fun x hx => htr x (List.mem_cons_of_mem r hx))
      (fun x hx => hline x (List.mem_cons_of_mem r hx))
    simp only [payloadsOfLines, List.map_cons, List.cons_append,
      List.filterMap_cons, hmr, id] at ihh ⊢
    rw [ihh]

/-- Running the append events accumulates the encoded records onto the
existing file content (creating the file if absent). -/
theorem offlineRun_appends (parse : List Char → Option JSValue)
    (stringify : JSValue → List Char) :
    ∀ (rs : List JSValue) (r : JSValue) (s : OfflineState),
    offlineRun parse stringify s ((r :: rs).map OfflineEvent.append) =
      { s with dataStoreFile := some (s.dataStoreFile.getD [] ++ encodeRecords stringify (r :: rs)) } := by
  intro rs
  induction rs with
  | nil =>
    intro r s
    simp [offlineRun, offlineStep, encodeRecords]
  | cons r2 rest ih =>
    intro r s
    have step1 : offlineRun parse stringify s ((r :: r2 :: rest).map OfflineEvent.append) =
        offlineRun parse stringify (offlineStep parse stringify s (OfflineEvent.append r))
          ((r2 :: rest).map OfflineEvent.append) := rfl
    rw [step1, ih r2 (offlineStep parse stringify s (OfflineEvent.append r))]
    simp [offlineStep, encodeRecords]

theorem offlineRun_append_events (parse : List Char → Option JSValue)
    (stringify : JSValue → List Char) (s : OfflineState)
    (evs1 evs2 : List OfflineEvent) :
    offlineRun parse stringify s (evs1 ++ evs2) =
      offlineRun parse stringify (offlineRun parse stringify s evs1) evs2 := by
  simp [offlineRun, List.foldl_append]

/-- **C2** — durability: starting from an absent store, append a nonempty
sequence of records (each of which serializes to a safe line that
round-trips through parse to a truthy value — true of every JSON object
payload), then run one flush whose submit succeeds and whose connectivity
re-check passes.  The single submitted batch is exactly the appended
record sequence — every appended record appears in it exactly once, in
order, with no loss and no duplication — and the store file is gone
afterwards. -/
theorem sendOfflineData_durability
    (parse : List Char → Option JSValue) (stringify : JSValue → List Char)
    (r0 : JSValue) (rs : List JSValue) (resp : SoftwareResponse) (avail : Bool)
    (hround : ∀ r ∈ r0 :: rs, parse (stringify r) = some r)
    (htr : ∀ r ∈ r0 :: rs, truthy r = true)
    (hline : ∀ r ∈ r0 :: rs, goodLine (stringify r))
    (hok : resp.ok = true) (hav : avail = true) :
    offlineRun parse stringify
        { telemetryOn := true, dataStoreFile := none, submits := [],
          pendingFlushes := 0 }
        ((r0 :: rs).map OfflineEvent.append ++
          [OfflineEvent.startFlush, OfflineEvent.completeFlush resp avail]) =
      { telemetryOn := true, dataStoreFile := none, submits := [r0 :: rs],
        pendingFlushes := 0 } := by
  have hcontent : parsePayloads parse (encodeRecords stringify (r0 :: rs)) =
      r0 :: rs := by
    rw [parsePayloads, splitRN_encodeRecords stringify _ hline,
      payloadsOfLines_encodeRecords parse stringify _ hround htr hline]
  have hne : encodeRecords stringify (r0 :: rs) ≠ [] := by
    cases h0 : stringify r0 <;> simp [encodeRecords, h0]
  have hemp : (encodeRecords stringify (r0 :: rs)).isEmpty = false := by
    cases h : encodeRecords stringify (r0 :: rs) with
    | nil => exact absurd h hne
    | cons c cs => rfl
  subst hav
  rw [offlineRun_append_events, offlineRun_appends]
  simp [offlineRun, offlineStep, hemp, hok, hcontent]

/-- Witness for C2: the single appended record `{"a":1}` is submitted as
the batch `[recA]` and the store file is deleted. -/
theorem sendOfflineData_durability_witness :
    offlineRun sampleParse sampleStringify
        { telemetryOn := true, dataStoreFile := none, submits := [],
          pendingFlushes := 0 }
        ([recA].map OfflineEvent.append ++
          [OfflineEvent.startFlush,
           OfflineEvent.completeFlush { ok := true, userDeactivated := false } true]) =
      { telemetryOn := true, dataStoreFile := none, submits := [[recA]],
        pendingFlushes := 0 } :=
  sendOfflineData_durability sampleParse sampleStringify recA []
    { ok := true, userDeactivated := false } true
    (fun r hr => by rw [List.mem_singleton] at hr; subst hr; rfl)
    (fun r hr => by rw [List.mem_singleton] at hr; subst hr; rfl)
    (fun r hr => by
      rw [List.mem_singleton] at hr; subst hr
      exact ⟨by decide, by decide, by decide⟩)
    rfl rfl

/-- The module-level mutable cache of `DataController.ts`:
`connectState` (null, or a `LoggedInState` reduced to its `loggedIn` flag)
and `lastLoggedInCheckTime` (null, or a unix-seconds timestamp). -/
structure ConnCache where
  connectState : Option Bool
  lastLoggedInCheckTime : Option Nat

/-- `isLoggedOn` (DataController.ts 77-111), reduced to what `getUserStatus`
consumes: a `GET /users/plugin/state` is issued only when the server is
online and a jwt is stored; `stateOk` abstracts "response ok and
`resp.data.state === "OK"`".  Result is `(loggedOn, networkCallIssued)`.
The side effects on `name`/`jwt`/`check_status` items are writes to
external session storage and do not feed back into `getUserStatus`. -/
def isLoggedOn (serverIsOnline jwt stateOk : Bool) : Bool × Bool :=
  if serverIsOnline && jwt then (stateOk, true) else (false, false)

/-- `getUserStatus(serverIsOnline, ignoreCache)` (DataController.ts 130-181).
With `ignoreCache` false and a non-null `connectState`: if
`lastLoggedInCheckTime` is set and older than the 300-second threshold,
both cache fields are nulled; if it is null it is set to `now` ("it's
null, set it"); then a still-non-null `connectState` is returned without
any network call.  Otherwise the fetch path runs: `isLoggedOn` is consulted
only when the server is online, `connectState` is set to the outcome — note
that `lastLoggedInCheckTime` is NOT updated on this path.  Result is
`(new cache, loggedIn, networkCallIssued)`. -/
def getUserStatus (cache : ConnCache) (now : Nat)
    (serverIsOnline jwt stateOk : Bool) (ignoreCache : Bool) :
    ConnCache × Bool × Bool :=
  let fetch : ConnCache → ConnCache × Bool × Bool := fun c =>
    let r := if serverIsOnline then isLoggedOn serverIsOnline jwt stateOk
             else (false, false)
    ({ connectState := some r.1, lastLoggedInCheckTime := c.lastLoggedInCheckTime },
      r.1, r.2)
  if !ignoreCache && cache.connectState.isSome then
    let cache1 : ConnCache :=
      match cache.lastLoggedInCheckTime with
      | some t =>
        if now - t > 60 * 5 then
          { connectState := none, lastLoggedInCheckTime := none }
        else cache
      | none => { cache with lastLoggedInCheckTime := some now }
    match cache1.connectState with
    | some b => (cache1, b, false)
    | none => fetch cache1
  else fetch cache

/-- `clearCachedLoggedInState` (DataController.ts 113-115): nulls
`connectState` but leaves `lastLoggedInCheckTime` untouched. -/
def clearCachedLoggedInState (cache : ConnCache) : ConnCache :=
  { cache with connectState := none }

/-- Refutation of C5 as stated: from a fresh cache, `getUserStatus` at
`t = 0` issues the one network check but leaves `lastLoggedInCheckTime`
null; the next `refresh(false)` at `t = 400` — well past the 300-second
TTL window — is still served from the cache with NO second network check
(it merely initializes the timestamp to 400). -/
theorem ttl_expiry_counterexample :
    getUserStatus { connectState := none, lastLoggedInCheckTime := none }
        0 true true true false =
      ({ connectState := some true, lastLoggedInCheckTime := none },
        true, true) ∧
    getUserStatus { connectState := some true, lastLoggedInCheckTime := none }
        400 true true true false =
      ({ connectState := some true, lastLoggedInCheckTime := some 400 },
        true, false) ∧
    400 - 0 > 60 * 5 :=
  ⟨rfl, rfl, by decide⟩

/-- **C5 (amended)** — the TTL window is measured from the lazily set
timestamp, not from the network check: (i) a `refresh(false)` on an empty
cache issues the network check but does not set `lastLoggedInCheckTime`;
(ii) the next `refresh(false)`, after ANY delay, is answered from the
cache with no network call and only then initializes the timestamp;
(iii) once a timestamp exists, a `refresh(false)` issues a second network
check exactly when the timestamp is more than 300 seconds old, and is
answered from the cache with no network call otherwise.  In particular two
`refresh(false)` calls within 5 minutes of each other with no intervening
`clear()` and no stale pre-existing timestamp issue at most one check. -/
theorem getUserStatus_ttl_behavior (t1 t2 now : Nat)
    (jwt stateOk stateOk2 b : Bool) :
    getUserStatus { connectState := none, lastLoggedInCheckTime := none }
        t1 true true stateOk false =
      ({ connectState := some stateOk, lastLoggedInCheckTime := none },
        stateOk, true) ∧
    getUserStatus { connectState := some b, lastLoggedInCheckTime := none }
        t2 true jwt stateOk2 false =
      ({ connectState := some b, lastLoggedInCheckTime := some t2 },
        b, false) ∧
    getUserStatus { connectState := some b, lastLoggedInCheckTime := some t2 }
        now true true stateOk2 false =
      (if now - t2 > 60 * 5 then
        ({ connectState := some stateOk2, lastLoggedInCheckTime := none },
          stateOk2, true)
      else
        ({ connectState := some b, lastLoggedInCheckTime := some t2 },
          b, false)) := by
  refine ⟨rfl, rfl, ?_⟩
  by_cases h : now - t2 > 60 * 5 <;>
    simp [getUserStatus, isLoggedOn, h]

/-- Refutation of C6 as stated: a refresh while the backend is unreachable
produces `loggedIn = false` and this negative outcome IS cached
(`connectState` becomes non-null); the next `refresh(false)` — with the
backend now reachable — returns the cached failure without issuing any
network check. -/
theorem offline_not_cached_counterexample :
    getUserStatus { connectState := none, lastLoggedInCheckTime := none }
        0 false true true true =
      ({ connectState := some false, lastLoggedInCheckTime := none },
        false, false) ∧
    getUserStatus { connectState := some false, lastLoggedInCheckTime := none }
        10 true true true false =
      ({ connectState := some false, lastLoggedInCheckTime := some 10 },
        false, false) :=
  ⟨rfl, rfl⟩

/-- **C6 (amended)** — there is no distinct `UnknownOrExpired` result: a
refresh while the backend is unreachable yields `loggedIn = false` and
caches that negative value exactly like a confirmed logged-out answer; a
subsequent `refresh(false)` within the TTL returns the cached negative
without retrying the network; only a forced refresh (`ignoreCache = true`,
as used after `clearCachedLoggedInState`) retries the network check. -/
theorem getUserStatus_offline_caches_negative (now later : Nat)
    (jwt stateOk ic : Bool) :
    getUserStatus { connectState := none, lastLoggedInCheckTime := none }
        now false jwt stateOk ic =
      ({ connectState := some false, lastLoggedInCheckTime := none },
        false, false) ∧
    getUserStatus { connectState := some false, lastLoggedInCheckTime := none }
        later true jwt stateOk false =
      ({ connectState := some false, lastLoggedInCheckTime := some later },
        false, false) ∧
    getUserStatus { connectState := some false, lastLoggedInCheckTime := none }
        later true true stateOk true =
      ({ connectState := some stateOk, lastLoggedInCheckTime := none },
        stateOk, true) := by
  refine ⟨?_, rfl, rfl⟩
  cases ic <;> rfl

/-- The retry chain of `userStatusFetchHandler` /
`refetchUserStatusLazily(tryCountUntilFoundUser)` (DataController.ts
323-355).  `loggedInAt k` is the outcome of the `getUserStatus` action on
the k-th handler invocation.  Each invocation performs one action; on
success the chain stops; otherwise, while the counter is positive it is
decremented and the handler is re-scheduled; at counter zero
`setItem("check_status", true)` — the `onExhausted` fallback — runs.
Result: `(action invocations, fallback invocations)`. -/
def userStatusFetchHandler (loggedInAt : Nat → Bool) : Nat → Nat → Nat × Nat
  | k, tryCount =>
    if loggedInAt k then (1, 0)
    else
      match tryCount with
      | 0 => (1, 1)
      | n + 1 =>
        let rest := userStatusFetchHandler loggedInAt (k + 1) n
        (rest.1 + 1, rest.2)

/-- One full campaign started by `refetchUserStatusLazily(n)`. -/
def refetchUserStatusLazily (loggedInAt : Nat → Bool)
    (tryCountUntilFoundUser : Nat) : Nat × Nat :=
  userStatusFetchHandler loggedInAt 0 tryCountUntilFoundUser

/-- Refutation of C7 as stated: a campaign configured with
`tryCountUntilFoundUser = 3` that never finds the user logged in invokes
the action 4 times — not at most 3 — before running the fallback once. -/
theorem retry_exhaustion_counterexample :
    refetchUserStatusLazily (fun _ => false) 3 = (4, 1) ∧ ¬ (4 ≤ 3) :=
  ⟨rfl, by decide⟩

/-- **C7 (amended)** — a campaign configured with counter `n` invokes the
action at most `n + 1` times (the counter counts re-tries after the first
invocation), invokes the `onExhausted` fallback at most once, and when the
action never succeeds performs exactly `n + 1` invocations followed by
exactly one fallback invocation. -/
theorem userStatusFetchHandler_bounds (f : Nat → Bool) (n : Nat) : ∀ (k : Nat),
    (userStatusFetchHandler f k n).1 ≤ n + 1 ∧
    (userStatusFetchHandler f k n).2 ≤ 1 ∧
    ((∀ j, f j = false) → userStatusFetchHandler f k n = (n + 1, 1)) := by
  induction n with
  | zero =>
    intro k
    refine ⟨?_, ?_, ?_⟩
    · rcases h : f k with _ | _ <;> simp [userStatusFetchHandler, h]
    · rcases h : f k with _ | _ <;> simp [userStatusFetchHandler, h]
    · intro hall
      simp [userStatusFetchHandler, hall k]
  | succ m ih =>
    intro k
    refine ⟨?_, ?_, ?_⟩
    · rcases h : f k with _ | _
      · have hb := (ih (k + 1)).1
        simp only [userStatusFetchHandler, h, Bool.false_eq_true, if_false]
        omega
      · simp [userStatusFetchHandler, h]
    · rcases h : f k with _ | _
      · have hb := (ih (k + 1)).2.1
        simp only [userStatusFetchHandler, h, Bool.false_eq_true, if_false]
        exact hb
      · simp [userStatusFetchHandler, h]
    · intro hall
      have hrec := (ih (k + 1)).2.2 hall
      simp [userStatusFetchHandler, hall k, hrec]

/-- Witness for C7 (amended): the always-failing campaign with counter 3
performs exactly 4 action invocations and one fallback invocation. -/
theorem userStatusFetchHandler_bounds_witness :
    userStatusFetchHandler (fun _ => false) 0 3 = (3 + 1, 1) :=
  (userStatusFetchHandler_bounds (fun _ => false) 3 0).2.2 (fun _ => rfl)

/-- The guard state of `refetchUserStatusLazily`: whether the module-level
`userFetchTimeout` variable is non-null (a 10-second timer is scheduled),
how many `userStatusFetchHandler` invocations have started but not yet
finished (their awaited network calls are in flight), and how many timers
have been created in total. -/
structure FetchTimerState where
  userFetchTimeout : Bool
  runningHandlers : Nat
  timersCreated : Nat

/-- The atomic steps around the guard, at the code's suspension points:
`callRefetch` is a `refetchUserStatusLazily` call (early return if
`userFetchTimeout` is non-null, else `setTimeout` is issued); `timerFire`
is the timeout callback, which nulls `userFetchTimeout` FIRST and then
starts the async handler; `handlerFinish` is the handler completing, with
`reschedule` true when it was not logged in and the counter was positive
(in which case it calls `refetchUserStatusLazily` again). -/
inductive FetchEvent where
  | callRefetch
  | timerFire
  | handlerFinish (reschedule : Bool)

def fetchStep (s : FetchTimerState) : FetchEvent → FetchTimerState
  | FetchEvent.callRefetch =>
    if s.userFetchTimeout then s
    else { s with userFetchTimeout := true, timersCreated := s.timersCreated + 1 }
  | FetchEvent.timerFire =>
    if s.userFetchTimeout then
      { s with userFetchTimeout := false,
               runningHandlers := s.runningHandlers + 1 }
    else s
  | FetchEvent.handlerFinish reschedule =>
    if s.runningHandlers = 0 then s
    else
      let s1 : FetchTimerState := { s with runningHandlers := s.runningHandlers - 1 }
      if reschedule then
        if s1.userFetchTimeout then s1
        else { s1 with userFetchTimeout := true,
                       timersCreated := s1.timersCreated + 1 }
      else s1

def fetchRun (s : FetchTimerState) (evs : List FetchEvent) : FetchTimerState :=
  evs.foldl fetchStep s

/-- Refutation of C8 as stated: after `callRefetch` and `timerFire`, the
campaign is still live (one handler is running, its network call pending),
but `userFetchTimeout` was nulled when the timer fired — so a further
`refetchUserStatusLazily` call in this window is NOT a no-op: it schedules
an additional timer (`timersCreated` goes from 1 to 2). -/
theorem single_campaign_counterexample :
    fetchRun { userFetchTimeout := false, runningHandlers := 0,
               timersCreated := 0 }
        [FetchEvent.callRefetch, FetchEvent.timerFire] =
      { userFetchTimeout := false, runningHandlers := 1,
        timersCreated := 1 } ∧
    fetchRun { userFetchTimeout := false, runningHandlers := 0,
               timersCreated := 0 }
        [FetchEvent.callRefetch, FetchEvent.timerFire, FetchEvent.callRefetch] =
      { userFetchTimeout := true, runningHandlers := 1,
        timersCreated := 2 } :=
  ⟨rfl, rfl⟩

/-- **C8 (amended)** — the in-flight guard covers only the timer-pending
window: while `userFetchTimeout` is non-null a further
`refetchUserStatusLazily` call is a no-op (in particular, two back-to-back
calls create at most one new timer and the second call never changes the
state); but once the timer has fired — while the handler's network call is
still pending — `userFetchTimeout` is null and a further call schedules an
additional timer. -/
theorem refetchUserStatusLazily_guard (s : FetchTimerState) :
    (s.userFetchTimeout = true → fetchStep s FetchEvent.callRefetch = s) ∧
    fetchRun s [FetchEvent.callRefetch, FetchEvent.callRefetch] =
      fetchRun s [FetchEvent.callRefetch] ∧
    (fetchRun s [FetchEvent.callRefetch]).timersCreated ≤ s.timersCreated + 1 ∧
    (s.userFetchTimeout = false → fetchStep s FetchEvent.callRefetch =
      { s with userFetchTimeout := true,
               timersCreated := s.timersCreated + 1 }) := by
  refine ⟨?_, ?_, ?_, ?_⟩
  · intro h
    simp [fetchStep, h]
  · rcases h : s.userFetchTimeout with _ | _ <;>
      simp [fetchRun, fetchStep, h]
  · rcases h : s.userFetchTimeout with _ | _ <;>
      simp [fetchRun, fetchStep, h]
  · intro h
    simp [fetchStep, h]

/-- Witness for C8 (amended), at a state with a pending timer and at one
with the timer already fired. -/
theorem refetchUserStatusLazily_guard_witness :
    fetchStep { userFetchTimeout := true, runningHandlers := 0,
                timersCreated := 1 } FetchEvent.callRefetch =
      { userFetchTimeout := true, runningHandlers := 0, timersCreated := 1 } ∧
    fetchStep { userFetchTimeout := false, runningHandlers := 1,
                timersCreated := 1 } FetchEvent.callRefetch =
      { userFetchTimeout := true, runningHandlers := 1, timersCreated := 1 + 1 } :=
  ⟨(refetchUserStatusLazily_guard
      { userFetchTimeout := true, runningHandlers := 0, timersCreated := 1 }).1 rfl,
   (refetchUserStatusLazily_guard
      { userFetchTimeout := false, runningHandlers := 1, timersCreated := 1 }).2.2.2 rfl⟩
